import Mathlib

/-!
Shallow embedding of the signaling core of the redfire-gateway repository:
the LAPD / Q.931 codecs and LAPD engine of `src/protocols/d-channel.ts`,
the NFAS manager of `src/protocols/nfas-manager.ts`, the Sigtran ISUP
handler, the FreeTDM protocol translator of `src/interfaces/freetdm.ts`
and the SIP handler of `src/protocols/sip.ts`.

Octet sequences (Node `Buffer` values) are modelled as `List Nat` whose
elements are byte values; JavaScript bitwise operations are translated to
`Nat` operations (`&&&`, `|||`, `^^^`, `<<<`, `>>>`), and stores into a
`Buffer` cell are masked with `&&& 0xFF`, matching `Uint8Array` coercion.
Functions that `throw` are modelled with `Except String`.  Mutable class
state becomes explicit state records, and one Lean function application
corresponds to one synchronous JavaScript execution of the method
(`EventEmitter.emit` runs its listeners synchronously, so an event
cascade is part of the same atomic step).  Emitted events are collected
in output lists.
-/

/-! ### Q.931 codec (`parseQ931Message` / `buildQ931Message`, d-channel.ts) -/

structure Q931CallReference where
  length : Nat
  flag : Bool
  value : Nat
  deriving Repr, DecidableEq

structure Q931InformationElement where
  id : Nat
  data : List Nat
  deriving Repr, DecidableEq

structure Q931Message where
  protocolDiscriminator : Nat
  callReference : Q931CallReference
  messageType : Nat
  informationElements : List Q931InformationElement
  deriving Repr, DecidableEq

/-- The call-reference-value loop of `parseQ931Message`:
`callRefValue = (callRefValue << 8) | (data[offset++] & (i === 0 ? 0x7F : 0xFF))`.
`i` counts the octets already consumed. -/
def q931CallRefValue (data : List Nat) (start : Nat) : Nat → Nat → Nat → Nat
  | 0, _, acc => acc
  | n + 1, i, acc =>
      q931CallRefValue data start n (i + 1)
        ((acc <<< 8) ||| (data.getD (start + i) 0 &&& (if i = 0 then 0x7F else 0xFF)))

/-- The information-element loop of `parseQ931Message`: single-octet IEs have
the high bit set; otherwise the next octet is the length and `ieLength`
octets of value follow.  The loop advances `offset` by at least one octet
per iteration, so a fuel of `data.length` (the value passed by
`parseQ931Message`) always outlasts the `while (offset < data.length)`
guard; the fuel only makes the recursion structural. -/
def q931ParseIEs (data : List Nat) : Nat → Nat → List Q931InformationElement
  | 0, _ => []
  | fuel + 1, offset =>
    if offset < data.length then
      let ieId := data.getD offset 0
      if ieId &&& 0x80 ≠ 0 then
        { id := ieId, data := [] } :: q931ParseIEs data fuel (offset + 1)
      else
        let ieLength := data.getD (offset + 1) 0
        let ieData := (data.drop (offset + 2)).take ieLength
        { id := ieId, data := ieData } :: q931ParseIEs data fuel (offset + 2 + ieLength)
    else []

/-- `parseQ931Message` (d-channel.ts lines 581-637). -/
def parseQ931Message (data : List Nat) : Except String Q931Message :=
  if data.length < 3 then
    .error "Q.931 message too short"
  else
    let protocolDiscriminator := data.getD 0 0
    let callRefLength := data.getD 1 0 &&& 0x0F
    let callRefFlag := data.getD 2 0 &&& 0x80 ≠ 0
    let callRefValue := q931CallRefValue data 2 callRefLength 0 0
    let messageType := data.getD (2 + callRefLength) 0
    let informationElements := q931ParseIEs data data.length (3 + callRefLength)
    .ok {
      protocolDiscriminator,
      callReference := { length := callRefLength, flag := callRefFlag, value := callRefValue },
      messageType,
      informationElements }

/-- The call-reference-value write loop of `buildQ931Message`:
`for (let i = length - 1; i >= 0; i--) buffer[offset++] = (crv >> (i * 8)) & 0xFF`. -/
def q931WriteCallRef (crv : Nat) : Nat → List Nat
  | 0 => []
  | i + 1 => ((crv >>> (i * 8)) &&& 0xFF) :: q931WriteCallRef crv i

/-- `buildQ931Message` (d-channel.ts lines 639-687).  Note that the flag is
ORed into the *low-order byte* of the call-reference value (`crv |= 0x80`)
before the value is written big-endian. -/
def buildQ931Message (message : Q931Message) : List Nat :=
  let crv :=
    if message.callReference.flag then message.callReference.value ||| 0x80
    else message.callReference.value
  [message.protocolDiscriminator &&& 0xFF, message.callReference.length &&& 0xFF]
    ++ q931WriteCallRef crv message.callReference.length
    ++ [message.messageType &&& 0xFF]
    ++ message.informationElements.flatMap
        (fun ie =>
          if ie.id &&& 0x80 ≠ 0 then [ie.id &&& 0xFF]
          else (ie.id &&& 0xFF) :: (ie.data.length &&& 0xFF) :: ie.data)

/-! ### LAPD frame codec (`parseLAPDFrame` / `buildLAPDFrame` / `calculateFCS`) -/

inductive SupervisoryType
  | RR | RNR | REJ | SREJ
  deriving Repr, DecidableEq

inductive UnnumberedType
  | SABME | DM | UI | DISC | UA | FRMR | XID
  deriving Repr, DecidableEq

structure LAPDAddress where
  sapi : Nat
  cr : Bool
  ea0 : Bool
  tei : Nat
  ea1 : Bool
  deriving Repr, DecidableEq

/-- The `control` record of a `LAPDFrame`; the frame kind determines which
optional fields of the TypeScript record are populated. -/
inductive LAPDControl
  | I (ns nr : Nat) (pf : Bool)
  | S (supervisory : SupervisoryType) (nr : Nat) (pf : Bool)
  | U (unnumbered : Option UnnumberedType) (pf : Bool)
  deriving Repr, DecidableEq

structure LAPDFrame where
  address : LAPDAddress
  control : LAPDControl
  information : Option (List Nat)
  fcs : Nat
  deriving Repr, DecidableEq

/-- One shift step of the CRC loop in `calculateFCS`. -/
def fcsShiftStep (fcs : Nat) : Nat :=
  if fcs &&& 0x8000 ≠ 0 then ((fcs <<< 1) ^^^ 0x1021) &&& 0xFFFF
  else (fcs <<< 1) &&& 0xFFFF

/-- `calculateFCS` (d-channel.ts lines 689-706): CRC-16, polynomial 0x1021,
init 0xFFFF, final XOR 0xFFFF. -/
def calculateFCS (data : List Nat) : Nat :=
  (data.foldl (fun fcs b => fcsShiftStep^[8] (fcs ^^^ (b <<< 8))) 0xFFFF) ^^^ 0xFFFF

/-- The numeric codes of the `unnumberedTypes` table in `parseLAPDFrame`. -/
def lapdUnnumberedOfCode (uType : Nat) : Option UnnumberedType :=
  if uType = 0x6F then some .SABME
  else if uType = 0x0F then some .DM
  else if uType = 0x03 then some .UI
  else if uType = 0x43 then some .DISC
  else if uType = 0x63 then some .UA
  else if uType = 0x87 then some .FRMR
  else if uType = 0xAF then some .XID
  else none

/-- The `['RR', 'RNR', 'REJ', 'SREJ'][sType]` lookup in `parseLAPDFrame`
(`sType` is already masked to two bits). -/
def lapdSupervisoryOfCode (sType : Nat) : SupervisoryType :=
  if sType = 0 then .RR else if sType = 1 then .RNR else if sType = 2 then .REJ else .SREJ

/-- `parseLAPDFrame` (d-channel.ts lines 453-522).  The only rejection is the
minimum-length check; the FCS octets are read (`readUInt16LE`) but never
compared against `calculateFCS`. -/
def parseLAPDFrame (data : List Nat) : Except String LAPDFrame :=
  if data.length < 4 then
    .error "LAPD frame too short"
  else
    let addr1 := data.getD 0 0
    let addr2 := data.getD 1 0
    let address : LAPDAddress := {
      sapi := (addr1 >>> 2) &&& 0x3F,
      cr := addr1 &&& 0x02 ≠ 0,
      ea0 := addr1 &&& 0x01 ≠ 0,
      tei := (addr2 >>> 1) &&& 0x7F,
      ea1 := addr2 &&& 0x01 ≠ 0 }
    let ctrl := data.getD 2 0
    let (control, offset) : LAPDControl × Nat :=
      if ctrl &&& 0x01 = 0 then
        (.I ((ctrl >>> 1) &&& 0x7F) ((data.getD 3 0 >>> 1) &&& 0x7F)
           (data.getD 3 0 &&& 0x01 ≠ 0), 4)
      else if ctrl &&& 0x03 = 0x01 then
        (.S (lapdSupervisoryOfCode ((ctrl >>> 2) &&& 0x03))
           ((data.getD 3 0 >>> 1) &&& 0x7F) (data.getD 3 0 &&& 0x01 ≠ 0), 4)
      else
        (.U (lapdUnnumberedOfCode (ctrl &&& 0xEF)) (ctrl &&& 0x10 ≠ 0), 3)
    let information : Option (List Nat) :=
      if offset < data.length - 2 then some ((data.drop offset).take (data.length - 2 - offset))
      else none
    let fcs := data.getD (data.length - 2) 0 + (data.getD (data.length - 1) 0 <<< 8)
    .ok { address, control, information, fcs }

/-- The `sTypes` table of `buildLAPDFrame`. -/
def lapdSupervisoryCode : SupervisoryType → Nat
  | .RR => 0 | .RNR => 1 | .REJ => 2 | .SREJ => 3

/-- The `uTypes` table of `buildLAPDFrame`; an unknown (absent) unnumbered
kind falls back to `0x03` via `|| 0x03`. -/
def lapdUnnumberedCode : Option UnnumberedType → Nat
  | some .SABME => 0x6F | some .DM => 0x0F | some .UI => 0x03 | some .DISC => 0x43
  | some .UA => 0x63 | some .FRMR => 0x87 | some .XID => 0xAF | none => 0x03

/-- `buildLAPDFrame` (d-channel.ts lines 524-579).  The FCS is recomputed
over address + control + information and appended little-endian; the
`fcs` field of the frame value is ignored. -/
def buildLAPDFrame (frame : LAPDFrame) : List Nat :=
  let addressBytes : List Nat :=
    [((frame.address.sapi <<< 2) ||| (if frame.address.cr then 0x02 else 0)
        ||| (if frame.address.ea0 then 0x01 else 0)) &&& 0xFF,
     ((frame.address.tei <<< 1) ||| (if frame.address.ea1 then 0x01 else 0)) &&& 0xFF]
  let controlBytes : List Nat :=
    match frame.control with
    | .I ns nr pf => [(ns <<< 1) &&& 0xFF, ((nr <<< 1) ||| (if pf then 0x01 else 0)) &&& 0xFF]
    | .S supervisory nr pf =>
        [(0x01 ||| (lapdSupervisoryCode supervisory <<< 2)) &&& 0xFF,
         ((nr <<< 1) ||| (if pf then 0x01 else 0)) &&& 0xFF]
    | .U unnumbered pf =>
        [(lapdUnnumberedCode unnumbered ||| (if pf then 0x10 else 0)) &&& 0xFF]
  let payload := addressBytes ++ controlBytes ++ frame.information.getD []
  let fcs := calculateFCS payload
  payload ++ [fcs &&& 0xFF, (fcs >>> 8) &&& 0xFF]

/-! ### LAPD engine (`DChannelHandler`, d-channel.ts)

The handler's mutable fields that the send / acknowledgment / T200 paths
touch become an explicit state record; `emit` calls accumulate in an
output list.  `t200Running` models whether a T200 timeout is scheduled
(`startT200Timer` / `clearT200Timer`). -/

inductive DChannelState
  | DOWN | ESTABLISHING | ESTABLISHED | MULTIPLE_FRAME_ESTABLISHED
  | TEI_ASSIGNED | AWAITING_ESTABLISHMENT | AWAITING_RELEASE
  deriving Repr, DecidableEq

inductive DChannelEvent
  | frameOut (bytes : List Nat)
  | errorEvent (message : String)
  | established
  | disconnected
  deriving Repr, DecidableEq

structure DChannelEngine where
  sapi : Nat
  tei : Nat
  maxRetransmissions : Nat
  state : DChannelState
  vs : Nat
  vr : Nat
  va : Nat
  retransmissionCount : Nat
  acknowledgePending : List LAPDFrame
  t200Running : Bool
  deriving Repr, DecidableEq

/-- `createInformationFrame` (d-channel.ts lines 395-413): N(S) is taken from
the current `vs`, N(R) from `vr`. -/
def createInformationFrame (e : DChannelEngine) (information : List Nat) : LAPDFrame :=
  { address := { sapi := e.sapi, cr := true, ea0 := false, tei := e.tei, ea1 := true },
    control := .I e.vs e.vr false,
    information := some information,
    fcs := 0 }

/-- The condition under which `sendFrame` pushes the frame onto
`acknowledgePending`: I-frames and SABME U-frames. -/
def framePushedForRetransmission (f : LAPDFrame) : Bool :=
  match f.control with
  | .I _ _ _ => true
  | .U (some .SABME) _ => true
  | _ => false

/-- `sendFrame` (d-channel.ts lines 375-392): builds the octets, emits
`frameOut`, and pushes I-frames and SABME frames onto the retransmission
queue, starting T200.  It never touches `vs`. -/
def sendFrame (e : DChannelEngine) (frame : LAPDFrame) : DChannelEngine × List DChannelEvent :=
  let out := DChannelEvent.frameOut (buildLAPDFrame frame)
  if framePushedForRetransmission frame then
    ({ e with acknowledgePending := e.acknowledgePending ++ [frame], t200Running := true }, [out])
  else (e, [out])

/-- `sendQ931Message` (d-channel.ts lines 363-373). -/
def sendQ931Message (e : DChannelEngine) (message : Q931Message) :
    Except String (DChannelEngine × List DChannelEvent) :=
  if e.state ≠ .ESTABLISHED ∧ e.state ≠ .MULTIPLE_FRAME_ESTABLISHED then
    .error "D-Channel not established"
  else
    let messageData := buildQ931Message message
    let iframe := createInformationFrame e messageData
    .ok (sendFrame e iframe)

/-- `updateAcknowledgmentState` (d-channel.ts lines 799-813): drops the
I-frames whose `ns` is numerically below `nr` (a plain `<`, with no
mod-128 window arithmetic) and overwrites `va` with `nr`. -/
def updateAcknowledgmentState (e : DChannelEngine) (nr : Nat) : DChannelEngine :=
  let pending := e.acknowledgePending.filter (fun f =>
    match f.control with
    | .I ns _ _ => ¬ ns < nr
    | _ => true)
  { e with acknowledgePending := pending, va := nr,
           t200Running := if pending.isEmpty then false else e.t200Running }

/-- `processSupervisoryREJ` (d-channel.ts lines 825-832): acknowledges via
`updateAcknowledgmentState` and rewinds `vs` to N(R); the announced
retransmission is an unimplemented comment. -/
def processSupervisoryREJ (e : DChannelEngine) (nr : Nat) : DChannelEngine :=
  let e := updateAcknowledgmentState e nr
  { e with vs := nr }

/-- One pass of the `for (const frame of this.acknowledgePending)` loop body
in `handleT200Timeout` at cursor `i`, fuelled: the JavaScript array
iterator re-reads `length` on every step while `sendFrame` appends the
re-sent frame to the very same array, so the traversal sees its own
appends.  Returns `none` when the fuel runs out before the loop's guard
fails. -/
def t200RetransmitLoop (fuel : Nat) (q : List LAPDFrame) (i : Nat) (outs : List DChannelEvent) :
    Option (List LAPDFrame × List DChannelEvent) :=
  match fuel with
  | 0 => none
  | fuel + 1 =>
      match q.get? i with
      | none => some (q, outs)
      | some f =>
          let outs := outs ++ [DChannelEvent.frameOut (buildLAPDFrame f)]
          let q := if framePushedForRetransmission f then q ++ [f] else q
          t200RetransmitLoop fuel q (i + 1) outs

/-- `handleT200Timeout` (d-channel.ts lines 756-773), fuelled because its
retransmission loop appends to the array it iterates.  When
`retransmissionCount >= maxRetransmissions` the engine drops to `DOWN`
and emits the error event; otherwise every pending frame is re-sent,
the counter is bumped and T200 restarted. -/
def handleT200Timeout (fuel : Nat) (e : DChannelEngine) :
    Option (DChannelEngine × List DChannelEvent) :=
  if e.retransmissionCount ≥ e.maxRetransmissions then
    some ({ e with state := .DOWN },
      [.errorEvent "Layer 2 establishment failed"])
  else
    match t200RetransmitLoop fuel e.acknowledgePending 0 [] with
    | none => none
    | some (q, outs) =>
        some ({ e with acknowledgePending := q,
                       retransmissionCount := e.retransmissionCount + 1,
                       t200Running := true }, outs)

/-- The half-open mod-128 window `[va, vs)` named by the specification's
retransmit-queue invariant. -/
def seqWindow (va vs : Nat) : List Nat :=
  (List.range ((vs + 128 - va) % 128)).map (fun i => (va + i) % 128)

/-- The N(S) values of the I-frames in the retransmission queue, in order. -/
def pendingSendSequenceNumbers (e : DChannelEngine) : List Nat :=
  e.acknowledgePending.filterMap (fun f =>
    match f.control with
    | .I ns _ _ => some ns
    | _ => none)

/-- The invariant claimed for the engine: the retransmit queue holds exactly
the I-frames with send sequence numbers in `[V(A), V(S))`. -/
def retransmitQueueMatchesWindow (e : DChannelEngine) : Prop :=
  pendingSendSequenceNumbers e = seqWindow e.va e.vs

instance (e : DChannelEngine) : Decidable (retransmitQueueMatchesWindow e) := by
  unfold retransmitQueueMatchesWindow; infer_instance

/-- A freshly established engine: the state right after UA is received
(`processUnnumberedUA`) with the variables at their reset values. -/
def establishedEngine : DChannelEngine :=
  { sapi := 0, tei := 0, maxRetransmissions := 3, state := .ESTABLISHED,
    vs := 0, vr := 0, va := 0, retransmissionCount := 0,
    acknowledgePending := [], t200Running := false }

/-- The STATUS ENQUIRY heartbeat message sent by `sendHeartbeats`
(nfas-manager.ts lines 394-406), reused here as a concrete Q.931 payload. -/
def statusEnquiryMessage : Q931Message :=
  { protocolDiscriminator := 0x08,
    callReference := { length := 1, flag := false, value := 0 },
    messageType := 0x75,
    informationElements := [] }

/-! ### Engine states used by the T200 theorems -/

/-- An established engine holding one unacknowledged I-frame (the queue
entry that `sendFrame` pushed), with no retransmission yet. -/
def pendingRetransmitEngine : DChannelEngine :=
  { establishedEngine with
      acknowledgePending := [createInformationFrame establishedEngine []],
      t200Running := true }

/-- The same engine after the retransmission counter has reached
`maxRetransmissions` (N200 = 3). -/
def maxedRetransmitEngine : DChannelEngine :=
  { pendingRetransmitEngine with retransmissionCount := 3 }

/-- The retransmission loop of `handleT200Timeout` never finishes once the
queue holds a frame that `sendFrame` re-appends: from a queue of `k + 1`
copies of such a frame with the cursor at `k`, every fuel value runs out. -/
theorem t200RetransmitLoop_replicate (f : LAPDFrame)
    (hf : framePushedForRetransmission f = true) :
    ∀ fuel k outs, t200RetransmitLoop fuel (List.replicate (k + 1) f) k outs = none := by
  intro fuel
  induction fuel with
  | zero => intro k outs; rfl
  | succ n ih =>
      intro k outs
      have hget : (List.replicate (k + 1) f).get? k = some f := by
        simp [List.get?_eq_getElem?, List.getElem?_replicate]
      have happ : List.replicate (k + 1) f ++ [f] = List.replicate (k + 1 + 1) f := by
        rw [List.replicate_succ' (k + 1) f]
      unfold t200RetransmitLoop
      rw [hget]
      simp only [hf, if_true, happ]
      exact ih (k + 1) _

/-! ### Claims C1-C4 -/

/-- C1: the codec round-trip `encode(decode(bytes)) == bytes` fails for a
well-formed Q.931 message whose 2-octet call reference has the flag bit
set in the high bit of the first call-reference octet.  `buildQ931Message`
ORs the flag into bit 7 of the low-order value byte (`crv |= 0x80`)
instead of the first octet, so the SETUP `08 02 92 34 05` (call reference
0x1234, flag set) re-encodes as `08 02 12 B4 05`. -/
theorem q931_length2_flag_callref_not_roundtrip :
    (parseQ931Message [0x08, 0x02, 0x92, 0x34, 0x05]).map buildQ931Message
      = Except.ok [0x08, 0x02, 0x12, 0xB4, 0x05] ∧
    ([0x08, 0x02, 0x12, 0xB4, 0x05] : List Nat) ≠ [0x08, 0x02, 0x92, 0x34, 0x05] :=
  ⟨rfl, by decide⟩

/-- C2 (amended): LAPD frame decoding rejects only inputs shorter than four
octets; every input of length at least four parses to a frame, the FCS
field being read from the wire but never compared to the computed CRC. -/
theorem lapd_decode_rejects_only_short (data : List Nat) (h : 4 ≤ data.length) :
    ∃ f, parseLAPDFrame data = Except.ok f := by
  unfold parseLAPDFrame
  rw [if_neg (by omega)]
  exact ⟨_, rfl⟩

/-- Witness for `lapd_decode_rejects_only_short` at the concrete five-octet
input `00 01 03 00 00`. -/
theorem lapd_decode_rejects_only_short_witness :
    4 ≤ ([0x00, 0x01, 0x03, 0x00, 0x00] : List Nat).length ∧
    ∃ f, parseLAPDFrame [0x00, 0x01, 0x03, 0x00, 0x00] = Except.ok f :=
  ⟨by decide, lapd_decode_rejects_only_short _ (by decide)⟩

/-- C2 (counterexample to the claim as stated): the UI frame
`00 01 03 00 00` carries FCS 0x0000 although the CRC-16 of its address,
control and information octets is 0x3031, yet `parseLAPDFrame` returns
the frame instead of a `BadFCS` error. -/
theorem lapd_decode_accepts_bad_fcs :
    calculateFCS [0x00, 0x01, 0x03] = 0x3031 ∧ (0x3031 : Nat) ≠ 0 ∧
    parseLAPDFrame [0x00, 0x01, 0x03, 0x00, 0x00] =
      Except.ok { address := { sapi := 0, cr := false, ea0 := false, tei := 0, ea1 := true },
                  control := .U (some .UI) false,
                  information := none,
                  fcs := 0 } :=
  ⟨by decide, by decide, rfl⟩

/-- C3: sending an I-frame does not advance V(S) and leaves the
retransmission queue out of step with the window `[V(A), V(S))`.  From a
freshly established engine, `sendQ931Message` (via `sendFrame`) pushes
the I-frame with N(S)=0 onto `acknowledgePending` but leaves `vs = 0`,
so the queue holds sequence number 0 while the claimed window `[0, 0)`
is empty. -/
theorem lapd_send_breaks_window_invariant :
    (sendQ931Message establishedEngine statusEnquiryMessage).map
        (fun r => (r.1.vs, r.1.va, pendingSendSequenceNumbers r.1))
      = Except.ok (0, 0, [0]) ∧
    seqWindow 0 0 = [] ∧ ([0] : List Nat) ≠ [] :=
  ⟨rfl, by decide, by decide⟩

/-- C4: with an unacknowledged I-frame queued and the retry count below
N200, `handleT200Timeout` never terminates — the `for..of` loop walks
`acknowledgePending` while `sendFrame` appends each re-sent I-frame to
the same array, so no fuel suffices — and with the retry count at N200
the engine drops to `DOWN` and emits the error event. -/
theorem handleT200Timeout_diverges :
    (∀ fuel, handleT200Timeout fuel pendingRetransmitEngine = none) ∧
    (∀ fuel, handleT200Timeout fuel maxedRetransmitEngine =
      some ({ maxedRetransmitEngine with state := .DOWN },
            [.errorEvent "Layer 2 establishment failed"])) := by
  constructor
  · intro fuel
    unfold handleT200Timeout
    rw [if_neg (by decide)]
    have h : t200RetransmitLoop fuel [createInformationFrame establishedEngine []] 0 [] = none :=
      t200RetransmitLoop_replicate (createInformationFrame establishedEngine []) rfl fuel 0 []
    have hq : pendingRetransmitEngine.acknowledgePending
        = [createInformationFrame establishedEngine []] := rfl
    rw [hq, h]
  · intro fuel
    unfold handleT200Timeout
    rw [if_pos (by decide)]

/-! ### NFAS manager (`NFASManager`, nfas-manager.ts)

Each `DChannelHandler` owned by a group is abstracted to the fields the
manager reads or drives (`getState`, `isEstablished`, `start`, `stop`,
`primaryInterface`); the `Map<number, DChannelHandler>` becomes a
function `Nat → Option NFASEngine`, and one Lean transition is one
synchronous JavaScript execution of a frame / event handler together
with the manager listeners it triggers (events are emitted
synchronously). -/

inductive NFASGroupState
  | inactive | active | switching
  deriving Repr, DecidableEq

structure NFASEngine where
  spanId : Nat
  primaryInterface : Bool
  isRunning : Bool
  state : DChannelState
  deriving Repr, DecidableEq

/-- `DChannelHandler.isEstablished` (d-channel.ts lines 868-871). -/
def NFASEngine.isEstablished (e : NFASEngine) : Bool :=
  e.state = DChannelState.ESTABLISHED ∨ e.state = DChannelState.MULTIPLE_FRAME_ESTABLISHED

/-- `DChannelHandler.start` in NFAS mode (d-channel.ts lines 122-144 and
172-194): throws when already running, otherwise moves to `ESTABLISHING`
and then — on both the primary branch (`establishAsPrimary`, which sends
SABME) and the backup branch — to `AWAITING_ESTABLISHMENT`.  It resolves
*without* waiting for the UA answer. -/
def engineStart (e : NFASEngine) : Except String NFASEngine :=
  if e.isRunning then .error "D-Channel already running"
  else
    let e := { e with isRunning := true, state := .ESTABLISHING }
    .ok { e with state := .AWAITING_ESTABLISHMENT }

/-- `DChannelHandler.stop` (d-channel.ts lines 146-157). -/
def engineStop (e : NFASEngine) : NFASEngine :=
  if ¬ e.isRunning then e else { e with state := .DOWN, isRunning := false }

structure NFASGroupConfig where
  groupId : Nat
  primarySpan : Nat
  backupSpans : List Nat

/-- The group state together with the `switchoverCount` counter that
`NFASManager` keeps in the group's statistics record. -/
structure NFASGroupSt where
  groupId : Nat
  primarySpan : Nat
  backupSpans : List Nat
  activeSpan : Nat
  spans : Nat → Option NFASEngine
  gstate : NFASGroupState
  switchoverCount : Nat

inductive NFASEvent
  | groupActivated (groupId activeSpan : Nat)
  | groupInactive (groupId : Nat) (reason : String)
  | switchoverCompleted (groupId previousSpan newActiveSpan : Nat) (reason : String)
  deriving Repr, DecidableEq

def updateSpan (spans : Nat → Option NFASEngine) (s : Nat) (e : NFASEngine) :
    Nat → Option NFASEngine :=
  fun k => if k = s then some e else spans k

/-- The handler-creation loop of `initializeGroup`: every span of
`[primarySpan, ...backupSpans]` gets a fresh engine (initial state
`DOWN`, not running), marked primary exactly when it equals the primary
span. -/
def initialSpans (cfg : NFASGroupConfig) : Nat → Option NFASEngine :=
  fun s =>
    if s = cfg.primarySpan ∨ s ∈ cfg.backupSpans then
      some { spanId := s, primaryInterface := s = cfg.primarySpan,
             isRunning := false, state := .DOWN }
    else none

/-- The candidate filter of `performSwitchover` (nfas-manager.ts lines
290-293): spans whose handler exists, is not `DOWN`, and is not the
currently active span. -/
def availableSpansFor (g : NFASGroupSt) : List Nat :=
  (g.primarySpan :: g.backupSpans).filter (fun s =>
    match g.spans s with
    | some h => h.state != DChannelState.DOWN && s != g.activeSpan
    | none => false)

/-- The `const currentHandler = group.spans.get(group.activeSpan); if
(currentHandler) await currentHandler.stop();` step of the switchover
candidate loop. -/
def stopActiveSpan (g : NFASGroupSt) : NFASGroupSt :=
  match g.spans g.activeSpan with
  | some current => { g with spans := updateSpan g.spans g.activeSpan (engineStop current) }
  | none => g

/-- The success tail of the switchover candidate loop: mark the candidate
active and bump `switchoverCount`.  The emitted `switchoverCompleted`
event reads `group.activeSpan` *after* it has been overwritten with the
new span, so its `previousSpan` field carries the new span. -/
def switchoverSucceed (g : NFASGroupSt) (spanId : Nat) (reason : String) :
    NFASGroupSt × List NFASEvent :=
  let g2 : NFASGroupSt :=
    { g with activeSpan := spanId, gstate := .active,
             switchoverCount := g.switchoverCount + 1 }
  (g2, [.switchoverCompleted g2.groupId g2.activeSpan spanId reason])

/-- The candidate loop of `performSwitchover` (nfas-manager.ts lines
307-369).  Per candidate: stop the engine at the (unchanged) active
span, start the candidate unless it is already established (a throwing
`start` — candidate already running — is caught and the loop continues),
then succeed via `switchoverSucceed`.  The candidate handler captured
before the stop is re-read from the updated map, mirroring the aliasing
of the mutated handler object. -/
def switchoverLoop (reason : String) :
    List Nat → NFASGroupSt → NFASGroupSt × List NFASEvent
  | [], g =>
      ({ g with gstate := .inactive }, [.groupInactive g.groupId "switchover_failed"])
  | spanId :: rest, g =>
      match g.spans spanId with
      | none => switchoverLoop reason rest g
      | some _ =>
          match (stopActiveSpan g).spans spanId with
          | none => switchoverLoop reason rest (stopActiveSpan g)
          | some handler =>
              if ¬ handler.isEstablished then
                match engineStart handler with
                | .error _ => switchoverLoop reason rest (stopActiveSpan g)
                | .ok started =>
                    switchoverSucceed
                      { stopActiveSpan g with
                          spans := updateSpan (stopActiveSpan g).spans spanId started }
                      spanId reason
              else switchoverSucceed (stopActiveSpan g) spanId reason

/-- `performSwitchover` (nfas-manager.ts lines 274-370): the group enters
`switching`, the candidates are filtered, and the loop runs; an empty
candidate list drops the group to `inactive` at once. -/
def performSwitchover (g : NFASGroupSt) (reason : String) : NFASGroupSt × List NFASEvent :=
  if (availableSpansFor { g with gstate := .switching }).isEmpty then
    ({ g with gstate := .inactive }, [.groupInactive g.groupId "no_backup_available"])
  else
    switchoverLoop reason (availableSpansFor { g with gstate := .switching })
      { g with gstate := .switching }

/-- `initializeGroup` (nfas-manager.ts lines 95-174): builds the group with
all engines `DOWN`, the primary span active-designated and the state
`inactive`, then starts the primary engine and — as soon as `start`
resolves, i.e. while the engine is still `AWAITING_ESTABLISHMENT` —
marks the group `active`.  A throwing `start` falls back to
`performSwitchover`. -/
def nfasFreshGroup (cfg : NFASGroupConfig) : NFASGroupSt :=
  { groupId := cfg.groupId, primarySpan := cfg.primarySpan,
    backupSpans := cfg.backupSpans, activeSpan := cfg.primarySpan,
    spans := initialSpans cfg, gstate := .inactive, switchoverCount := 0 }

def initializeGroup (cfg : NFASGroupConfig) : NFASGroupSt × List NFASEvent :=
  match (nfasFreshGroup cfg).spans cfg.primarySpan with
  | none => (nfasFreshGroup cfg, [])
  | some h =>
      match engineStart h with
      | .ok h2 =>
          ({ nfasFreshGroup cfg with
               spans := updateSpan (nfasFreshGroup cfg).spans cfg.primarySpan h2,
               gstate := .active }, [])
      | .error _ => performSwitchover (nfasFreshGroup cfg) "primary_failed"

/-- Reception of a frame that establishes the engine at `spanId` (UA while
awaiting establishment — `processUnnumberedUA` — or a SABME answered
with UA — `processUnnumberedSABME`), followed by the manager's
`handleDChannelEstablished` listener: when the engine is the primary
interface and the group is not yet active, the group becomes active on
that span.  `processReceivedFrame` drops frames when the handler is not
running. -/
def recvEstablished (g : NFASGroupSt) (spanId : Nat) : NFASGroupSt × List NFASEvent :=
  match g.spans spanId with
  | none => (g, [])
  | some h =>
      if ¬ h.isRunning then (g, [])
      else if h.primaryInterface ∧ g.gstate ≠ .active then
        ({ g with spans := updateSpan g.spans spanId { h with state := .ESTABLISHED },
                  gstate := .active, activeSpan := spanId },
         [.groupActivated g.groupId spanId])
      else
        ({ g with spans := updateSpan g.spans spanId { h with state := .ESTABLISHED } }, [])

/-- Reception of DISC or DM at `spanId` (`processUnnumberedDISC` /
`processUnnumberedDM`: engine drops to `DOWN`, emits `disconnected`),
followed by the manager's `handleDChannelDisconnected` listener, which
performs a switchover when the span was the active one. -/
def recvDisconnected (g : NFASGroupSt) (spanId : Nat) : NFASGroupSt × List NFASEvent :=
  match g.spans spanId with
  | none => (g, [])
  | some h =>
      if ¬ h.isRunning then (g, [])
      else if spanId = g.activeSpan then
        performSwitchover
          { g with spans := updateSpan g.spans spanId { h with state := .DOWN } }
          "interface_down"
      else
        ({ g with spans := updateSpan g.spans spanId { h with state := .DOWN } }, [])

/-- An engine error at `spanId` (FRMR — `processUnnumberedFRMR` — or T200
exhaustion — `handleT200Timeout`: engine drops to `DOWN`, emits
`error`), followed by the manager's `handleDChannelError` listener. -/
def recvError (g : NFASGroupSt) (spanId : Nat) : NFASGroupSt × List NFASEvent :=
  match g.spans spanId with
  | none => (g, [])
  | some h =>
      if ¬ h.isRunning then (g, [])
      else if spanId = g.activeSpan then
        performSwitchover
          { g with spans := updateSpan g.spans spanId { h with state := .DOWN } }
          "interface_error"
      else
        ({ g with spans := updateSpan g.spans spanId { h with state := .DOWN } }, [])

/-- `forceSwitchover` (nfas-manager.ts lines 462-494): with a target span it
throws when the span is unknown, otherwise overwrites `activeSpan` with
the target *before* delegating to `performSwitchover`. -/
def forceSwitchover (g : NFASGroupSt) (target : Option Nat) :
    Except String (NFASGroupSt × List NFASEvent) :=
  match target with
  | some t =>
      match g.spans t with
      | none => .error "Span not found in group"
      | some _ => .ok (performSwitchover { g with activeSpan := t } "manual")
  | none => .ok (performSwitchover g "manual")

/-- The reachable group states of one NFAS group: initialisation followed by
any interleaving of establishment, disconnection, error and manual
switchover handler runs.  (`sendHeartbeats`, `handleQ931Message` and
`sendQ931Message` mutate only statistics counters outside this record,
and `NFASManager.stop` deletes the group.) -/
inductive NFASReachable : NFASGroupSt → Prop
  | init (cfg : NFASGroupConfig) : NFASReachable (initializeGroup cfg).1
  | established {g} (spanId : Nat) :
      NFASReachable g → NFASReachable (recvEstablished g spanId).1
  | disconnected {g} (spanId : Nat) :
      NFASReachable g → NFASReachable (recvDisconnected g spanId).1
  | errored {g} (spanId : Nat) :
      NFASReachable g → NFASReachable (recvError g spanId).1
  | forced {g} (target : Option Nat) {g2 : NFASGroupSt} {evs : List NFASEvent} :
      NFASReachable g → forceSwitchover g target = .ok (g2, evs) → NFASReachable g2

/-! ### NFAS invariants (claims C5 and C6) -/

/-- No engine owned by a group is ever in `MULTIPLE_FRAME_ESTABLISHED`:
the source never assigns that state.  Auxiliary invariant used for the
switchover proofs. -/
def noMultipleFrame (g : NFASGroupSt) : Prop :=
  ∀ s e, g.spans s = some e → e.state ≠ .MULTIPLE_FRAME_ESTABLISHED

/-- The (amended) active-span invariant: an `active` group designates a
member engine as its active span, and that engine is `ESTABLISHED` or
still `AWAITING_ESTABLISHMENT`.  `activeSpan` is a single field, so the
active designation is unique by construction. -/
def activeSpanInv (g : NFASGroupSt) : Prop :=
  g.gstate = .active → ∃ e, g.spans g.activeSpan = some e ∧
    (e.state = .ESTABLISHED ∨ e.state = .AWAITING_ESTABLISHMENT)

def nfasInv (g : NFASGroupSt) : Prop := noMultipleFrame g ∧ activeSpanInv g

theorem updateSpan_self (sp : Nat → Option NFASEngine) (s : Nat) (e : NFASEngine) :
    updateSpan sp s e s = some e := by
  simp [updateSpan]

theorem updateSpan_other {k s : Nat} (sp : Nat → Option NFASEngine) (e : NFASEngine)
    (hne : k ≠ s) : updateSpan sp s e k = sp k := by
  simp [updateSpan, hne]

theorem noMultipleFrame_update {sp : Nat → Option NFASEngine}
    (hg : ∀ s e, sp s = some e → e.state ≠ .MULTIPLE_FRAME_ESTABLISHED)
    (s : Nat) (e : NFASEngine) (he : e.state ≠ .MULTIPLE_FRAME_ESTABLISHED) :
    ∀ k e2, updateSpan sp s e k = some e2 → e2.state ≠ .MULTIPLE_FRAME_ESTABLISHED := by
  intro k e2 hk
  unfold updateSpan at hk
  by_cases h : k = s
  · rw [if_pos h] at hk; cases hk; exact he
  · rw [if_neg h] at hk; exact hg k e2 hk

theorem engineStart_ok {e e2 : NFASEngine} (h : engineStart e = .ok e2) :
    e2.state = .AWAITING_ESTABLISHMENT ∧ e2.isRunning = true := by
  unfold engineStart at h
  by_cases hr : e.isRunning
  · rw [if_pos hr] at h; cases h
  · rw [if_neg hr] at h
    cases h
    exact ⟨rfl, rfl⟩

theorem engineStop_not_mf {e : NFASEngine} (he : e.state ≠ .MULTIPLE_FRAME_ESTABLISHED) :
    (engineStop e).state ≠ .MULTIPLE_FRAME_ESTABLISHED := by
  unfold engineStop
  by_cases hr : ¬ e.isRunning
  · rw [if_pos hr]; exact he
  · rw [if_neg hr]; simp

theorem stopActiveSpan_noMF {g : NFASGroupSt} (hg : noMultipleFrame g) :
    noMultipleFrame (stopActiveSpan g) := by
  unfold stopActiveSpan
  cases hcur : g.spans g.activeSpan with
  | none => exact hg
  | some current =>
      exact fun s e he =>
        noMultipleFrame_update hg g.activeSpan (engineStop current)
          (engineStop_not_mf (hg _ _ hcur)) s e he

/-- Every exit of the switchover candidate loop satisfies the invariant: a
failed loop leaves the group `inactive` (vacuous), and a successful exit
activates a candidate that is either freshly started
(`AWAITING_ESTABLISHMENT`) or already established. -/
theorem switchoverLoop_inv (reason : String) :
    ∀ (l : List Nat) (g : NFASGroupSt), noMultipleFrame g →
      nfasInv (switchoverLoop reason l g).1 := by
  intro l
  induction l with
  | nil =>
      intro g hg
      refine ⟨hg, fun hact => ?_⟩
      simp [switchoverLoop] at hact
  | cons spanId rest ih =>
      intro g hg
      unfold switchoverLoop
      split
      · exact ih g hg
      · next h0 hsp =>
        split
        · exact ih (stopActiveSpan g) (stopActiveSpan_noMF hg)
        · next handler hsp1 =>
          by_cases hest : ¬ handler.isEstablished
          · rw [if_pos hest]
            cases hstart : engineStart handler with
            | error msg => exact ih (stopActiveSpan g) (stopActiveSpan_noMF hg)
            | ok started =>
                obtain ⟨hstate, _⟩ := engineStart_ok hstart
                refine ⟨?_, ?_⟩
                · intro s e he
                  exact noMultipleFrame_update (stopActiveSpan_noMF hg) spanId started
                    (by rw [hstate]; simp) s e he
                · intro _
                  exact ⟨started, updateSpan_self _ _ _, Or.inr hstate⟩
          · rw [if_neg hest]
            rw [not_not] at hest
            refine ⟨stopActiveSpan_noMF hg, ?_⟩
            intro _
            refine ⟨handler, hsp1, Or.inl ?_⟩
            have hmf := stopActiveSpan_noMF hg spanId handler hsp1
            unfold NFASEngine.isEstablished at hest
            rcases of_decide_eq_true hest with h1 | h2
            · exact h1
            · exact absurd h2 hmf

theorem performSwitchover_inv (g : NFASGroupSt) (reason : String)
    (hg : noMultipleFrame g) : nfasInv (performSwitchover g reason).1 := by
  unfold performSwitchover
  split
  · refine ⟨hg, fun hact => ?_⟩
    simp at hact
  · exact switchoverLoop_inv reason _ _ hg

theorem nfasFreshGroup_noMF (cfg : NFASGroupConfig) :
    noMultipleFrame (nfasFreshGroup cfg) := by
  intro s e he
  unfold nfasFreshGroup initialSpans at he
  simp only [] at he
  split at he
  · cases he; simp
  · cases he

theorem initializeGroup_inv (cfg : NFASGroupConfig) : nfasInv (initializeGroup cfg).1 := by
  unfold initializeGroup
  split
  · refine ⟨nfasFreshGroup_noMF cfg, fun hact => ?_⟩
    simp [nfasFreshGroup] at hact
  · next h hsp =>
    split
    · next h2 hstart =>
      obtain ⟨hstate, _⟩ := engineStart_ok hstart
      refine ⟨?_, fun _ => ⟨h2, updateSpan_self _ _ _, Or.inr hstate⟩⟩
      intro s e he
      exact noMultipleFrame_update (nfasFreshGroup_noMF cfg) _ h2
        (by rw [hstate]; simp) s e he
    · exact performSwitchover_inv _ _ (nfasFreshGroup_noMF cfg)

theorem recvEstablished_inv {g : NFASGroupSt} (spanId : Nat) (hg : nfasInv g) :
    nfasInv (recvEstablished g spanId).1 := by
  obtain ⟨hmf, hact⟩ := hg
  unfold recvEstablished
  split
  · exact ⟨hmf, hact⟩
  · next h hsp =>
    split
    · exact ⟨hmf, hact⟩
    · split
      · refine ⟨?_,
          fun _ => ⟨{ h with state := .ESTABLISHED }, updateSpan_self _ _ _, Or.inl rfl⟩⟩
        intro s e he
        exact noMultipleFrame_update hmf spanId { h with state := .ESTABLISHED } (by simp) s e he
      · refine ⟨?_, ?_⟩
        · intro s e he
          exact noMultipleFrame_update hmf spanId { h with state := .ESTABLISHED } (by simp) s e he
        · intro hact2
          obtain ⟨e, he, hst⟩ := hact hact2
          by_cases heqs : g.activeSpan = spanId
          · refine ⟨{ h with state := .ESTABLISHED }, ?_, Or.inl rfl⟩
            show updateSpan g.spans spanId { h with state := .ESTABLISHED } g.activeSpan = _
            rw [heqs]
            exact updateSpan_self _ _ _
          · refine ⟨e, ?_, hst⟩
            show updateSpan g.spans spanId { h with state := .ESTABLISHED } g.activeSpan = _
            rw [updateSpan_other _ _ heqs]
            exact he

theorem recvDisconnected_inv {g : NFASGroupSt} (spanId : Nat) (hg : nfasInv g) :
    nfasInv (recvDisconnected g spanId).1 := by
  obtain ⟨hmf, hact⟩ := hg
  unfold recvDisconnected
  split
  · exact ⟨hmf, hact⟩
  · next h hsp =>
    split
    · exact ⟨hmf, hact⟩
    · split
      · exact performSwitchover_inv _ _
          (fun s e he =>
            noMultipleFrame_update hmf spanId { h with state := .DOWN } (by simp) s e he)
      · next hne =>
        refine ⟨?_, ?_⟩
        · intro s e he
          exact noMultipleFrame_update hmf spanId { h with state := .DOWN } (by simp) s e he
        · intro hact2
          obtain ⟨e, he, hst⟩ := hact hact2
          refine ⟨e, ?_, hst⟩
          show updateSpan g.spans spanId { h with state := .DOWN } g.activeSpan = _
          rw [updateSpan_other _ _ (fun hh => hne hh.symm)]
          exact he

theorem recvError_inv {g : NFASGroupSt} (spanId : Nat) (hg : nfasInv g) :
    nfasInv (recvError g spanId).1 := by
  obtain ⟨hmf, hact⟩ := hg
  unfold recvError
  split
  · exact ⟨hmf, hact⟩
  · next h hsp =>
    split
    · exact ⟨hmf, hact⟩
    · split
      · exact performSwitchover_inv _ _
          (fun s e he =>
            noMultipleFrame_update hmf spanId { h with state := .DOWN } (by simp) s e he)
      · next hne =>
        refine ⟨?_, ?_⟩
        · intro s e he
          exact noMultipleFrame_update hmf spanId { h with state := .DOWN } (by simp) s e he
        · intro hact2
          obtain ⟨e, he, hst⟩ := hact hact2
          refine ⟨e, ?_, hst⟩
          show updateSpan g.spans spanId { h with state := .DOWN } g.activeSpan = _
          rw [updateSpan_other _ _ (fun hh => hne hh.symm)]
          exact he

theorem forceSwitchover_inv {g : NFASGroupSt} {target : Option Nat}
    {g2 : NFASGroupSt} {evs : List NFASEvent} (hg : noMultipleFrame g)
    (h : forceSwitchover g target = .ok (g2, evs)) : nfasInv g2 := by
  unfold forceSwitchover at h
  split at h
  · split at h
    · cases h
    · rename_i t x handler heq
      have h2 := Except.ok.inj h
      have hinv := performSwitchover_inv { g with activeSpan := t } "manual" hg
      rw [h2] at hinv
      exact hinv
  · have h2 := Except.ok.inj h
    have hinv := performSwitchover_inv g "manual" hg
    rw [h2] at hinv
    exact hinv

theorem nfasReachable_inv {g : NFASGroupSt} (h : NFASReachable g) : nfasInv g := by
  induction h with
  | init cfg => exact initializeGroup_inv cfg
  | established spanId _ ih => exact recvEstablished_inv spanId ih
  | disconnected spanId _ ih => exact recvDisconnected_inv spanId ih
  | errored spanId _ ih => exact recvError_inv spanId ih
  | forced target hr hok ih => exact forceSwitchover_inv ih.1 hok

/-- A two-span NFAS group configuration (primary span 1, backup span 2). -/
def nfasDemoConfig : NFASGroupConfig := { groupId := 1, primarySpan := 1, backupSpans := [2] }

/-- C5 (counterexample to the claim as stated): right after
`initializeGroup`, a reachable state, the group is `active` on span 1
while the primary engine is still `AWAITING_ESTABLISHMENT` —
`DChannelHandler.start` resolves before any UA is received, so the group
becomes active with an engine that is not `ESTABLISHED`. -/
theorem nfas_group_active_while_engine_awaiting :
    NFASReachable (initializeGroup nfasDemoConfig).1 ∧
    (initializeGroup nfasDemoConfig).1.gstate = .active ∧
    (initializeGroup nfasDemoConfig).1.activeSpan = 1 ∧
    ((initializeGroup nfasDemoConfig).1.spans 1).map NFASEngine.state
      = some .AWAITING_ESTABLISHMENT ∧
    DChannelState.AWAITING_ESTABLISHMENT ≠ DChannelState.ESTABLISHED :=
  ⟨.init nfasDemoConfig, rfl, rfl, rfl, by decide⟩

/-- C5 (amended): in every reachable state of the NFAS manager, an `active`
group designates exactly one member span as active (the single
`activeSpan` field, which maps to an engine of the group), and that
engine's state is `ESTABLISHED` *or* `AWAITING_ESTABLISHMENT` — the
group may become active while its engine is still awaiting
establishment. -/
theorem nfas_active_span_established_or_awaiting (g : NFASGroupSt) (h : NFASReachable g)
    (hact : g.gstate = .active) :
    ∃ e, g.spans g.activeSpan = some e ∧
      (e.state = .ESTABLISHED ∨ e.state = .AWAITING_ESTABLISHMENT) :=
  (nfasReachable_inv h).2 hact

/-- Witness for `nfas_active_span_established_or_awaiting` at the reachable
state produced by `initializeGroup` on the two-span demo config. -/
theorem nfas_active_span_established_or_awaiting_witness :
    ∃ e, (initializeGroup nfasDemoConfig).1.spans (initializeGroup nfasDemoConfig).1.activeSpan
        = some e ∧ (e.state = .ESTABLISHED ∨ e.state = .AWAITING_ESTABLISHMENT) :=
  nfas_active_span_established_or_awaiting _ (.init nfasDemoConfig) rfl

/-- A group active on span 1 whose primary engine has just failed (`DOWN`)
and whose backup engine on span 2 is established — the configuration in
which `performSwitchover` succeeds onto span 2. -/
def switchoverDemoGroup : NFASGroupSt :=
  { groupId := 1, primarySpan := 1, backupSpans := [2], activeSpan := 1,
    spans := fun s =>
      if s = 1 then
        some { spanId := 1, primaryInterface := true, isRunning := true, state := .DOWN }
      else if s = 2 then
        some { spanId := 2, primaryInterface := false, isRunning := true, state := .ESTABLISHED }
      else none,
    gstate := .active, switchoverCount := 0 }

/-- C6: a successful switchover from span 1 to span 2 does set the active
span to 2 and increment `switchoverCount`, but the emitted
`switchoverCompleted` event carries `previousSpan = 2` — the *new* span,
not the previously active span 1 — because the source reads
`group.activeSpan` after overwriting it. -/
theorem switchover_event_reports_new_span_as_previous :
    switchoverDemoGroup.activeSpan = 1 ∧
    (performSwitchover switchoverDemoGroup "interface_error").1.activeSpan = 2 ∧
    (performSwitchover switchoverDemoGroup "interface_error").1.switchoverCount
      = switchoverDemoGroup.switchoverCount + 1 ∧
    (performSwitchover switchoverDemoGroup "interface_error").2
      = [.switchoverCompleted 1 2 2 "interface_error"] ∧
    (2 : Nat) ≠ 1 :=
  ⟨rfl, rfl, rfl, rfl, by decide⟩

/-! ### Sigtran ISUP handler (`SigtranISUPHandler`, src/unnamed/part_001)

`calls : Map<number, ISUPCall>` becomes a function `Nat → Option ISUPCall`
(only key-based access is used); `availableCICs : Set<number>` becomes a
`List Nat` in *insertion order*, because a JavaScript `Set` iterates in
insertion order and `allocateCIC` takes `Array.from(set)[0]`.  Methods
that can `throw` after mutating return the state reached at the throw
point together with an `Except`. -/

inductive ISUPCallState
  | idle | outgoing_setup | incoming_setup | answered | releasing
  deriving Repr, DecidableEq

structure ISUPCall where
  cic : Nat
  state : ISUPCallState
  callingNumber : Option String
  calledNumber : Option String
  deriving Repr, DecidableEq

structure ISUPMessage where
  messageType : Nat
  cic : Nat
  parameters : List Nat
  deriving Repr, DecidableEq

inductive ISUPEvent
  | messageOut (m : ISUPMessage)
  | incomingCall (c : ISUPCall)
  | callProgress (c : ISUPCall)
  | callAnswered (c : ISUPCall)
  | callReleased (c : ISUPCall) (cause : Nat)
  | callCleared (c : ISUPCall)
  | unknownMessage (m : ISUPMessage)
  | started
  | stopped
  deriving Repr, DecidableEq

structure ISUPHandlerSt where
  calls : Nat → Option ISUPCall
  availableCICs : List Nat
  isRunning : Bool

namespace SigtranISUPHandler

/-- `Set.add`: appends at the back unless already present. -/
def setAdd (l : List Nat) (c : Nat) : List Nat := if c ∈ l then l else l ++ [c]

/-- `Set.delete`. -/
def setDelete (l : List Nat) (c : Nat) : List Nat := l.filter (fun x => x ≠ c)

def setCall (calls : Nat → Option ISUPCall) (k : Nat) (v : ISUPCall) :
    Nat → Option ISUPCall :=
  fun c => if c = k then some v else calls c

def delCall (calls : Nat → Option ISUPCall) (k : Nat) : Nat → Option ISUPCall :=
  fun c => if c = k then none else calls c

/-- The constructor: CICs 1..1000 are inserted in ascending order. -/
def initISUPHandler : ISUPHandlerSt :=
  { calls := fun _ => none,
    availableCICs := (List.range 1000).map (· + 1),
    isRunning := false }

/-- `allocateCIC`: `Array.from(this.availableCICs)[0]` — the *first CIC in
insertion order*, not the numerically smallest. -/
def allocateCIC (s : ISUPHandlerSt) : Option Nat × ISUPHandlerSt :=
  match s.availableCICs.head? with
  | none => (none, s)
  | some cic => (some cic, { s with availableCICs := setDelete s.availableCICs cic })

/-- The digit-pair packing loop shared by `writeCalledPartyNumber` and
`writeCallingPartyNumber`: `(digit2 << 4) | digit1`, padding a trailing
odd digit with 0. -/
def digitVal (c : Char) : Nat := c.toNat - 48

def packDigits : List Char → List Nat
  | [] => []
  | [c] => [digitVal c &&& 0xFF]
  | c1 :: c2 :: rest => (((digitVal c2 <<< 4) ||| digitVal c1) &&& 0xFF) :: packDigits rest

/-- `writeCalledPartyNumber`: tag 0x04, length `ceil(n/2)+1`, nature octet
0x83, packed digits. -/
def writeCalledPartyNumber (number : String) : List Nat :=
  0x04 :: ((number.length + 1) / 2 + 1) :: 0x83 :: packDigits number.toList

/-- `writeCallingPartyNumber`: tag 0x0A, length `ceil(n/2)+2`, nature octet
0x83, screening octet 0x00, packed digits. -/
def writeCallingPartyNumber (number : String) : List Nat :=
  0x0A :: ((number.length + 1) / 2 + 2) :: 0x83 :: 0x00 :: packDigits number.toList

/-- `writeNatureOfConnectionIndicators`: tag 0x06, length 1, value 0. -/
def writeNatureOfConnectionIndicators : List Nat := [0x06, 0x01, 0x00]

/-- `buildIAMParameters`: called party, then calling party, then nature of
connection indicators. -/
def buildIAMParameters (callingNumber calledNumber : String) : List Nat :=
  writeCalledPartyNumber calledNumber ++ writeCallingPartyNumber callingNumber
    ++ writeNatureOfConnectionIndicators

/-- `parseDigits`: low nibble first, high nibble appended when non-zero. -/
def parseDigits (buffer : List Nat) : String :=
  buffer.foldl (fun acc b =>
    let digit1 := b &&& 0x0F
    let digit2 := (b >>> 4) &&& 0x0F
    let acc := acc ++ toString digit1
    if digit2 ≠ 0 then acc ++ toString digit2 else acc) ""

/-- The `while (offset < parameters.length)` loop of `parseIAMParameters`.
`Buffer.readUInt8` is bounds-checked in Node, so a truncated (tag,
length) pair throws a range error.  The offset advances by at least two
octets per iteration, so the `parameters.length` fuel passed at entry
always suffices. -/
def parseIAMLoop (params : List Nat) :
    Nat → Nat → Option String → Option String →
    Except String (Option String × Option String)
  | 0, _, calling, called => .ok (calling, called)
  | fuel + 1, offset, calling, called =>
      if offset < params.length then
        if offset + 1 < params.length then
          let tag := params.getD offset 0
          let len := params.getD (offset + 1) 0
          if tag = 0x04 then
            parseIAMLoop params fuel (offset + 2 + len) calling
              (some (parseDigits ((params.drop (offset + 3)).take (len - 1))))
          else if tag = 0x0A then
            parseIAMLoop params fuel (offset + 2 + len)
              (some (parseDigits ((params.drop (offset + 4)).take (len - 2)))) called
          else
            parseIAMLoop params fuel (offset + 2 + len) calling called
        else .error "readUInt8 out of range"
      else .ok (calling, called)

def parseIAMParameters (params : List Nat) :
    Except String (Option String × Option String) :=
  parseIAMLoop params params.length 0 none none

/-- The loop of `parseCauseParameter`: on tag 0x12 it returns
`readUInt8(offset + 1) & 0x7F` — the octet *after* the location octet —
and falls through to the default cause 16 when no cause parameter is
found. -/
def parseCauseLoop (params : List Nat) : Nat → Nat → Except String Nat
  | 0, _ => .ok 16
  | fuel + 1, offset =>
      if offset < params.length then
        if offset + 1 < params.length then
          if params.getD offset 0 = 0x12 then
            if offset + 3 < params.length then .ok (params.getD (offset + 3) 0 &&& 0x7F)
            else .error "readUInt8 out of range"
          else
            parseCauseLoop params fuel (offset + 2 + params.getD (offset + 1) 0)
        else .error "readUInt8 out of range"
      else .ok 16

def parseCauseParameter (params : List Nat) : Except String Nat :=
  parseCauseLoop params params.length 0

/-- `buildCauseParameter`: tag 0x12, length 2, location octet 0x80, cause
with the extension bit set. -/
def buildCauseParameter (cause : Nat) : List Nat :=
  [0x12, 0x02, 0x80, (0x80 ||| cause) &&& 0xFF]

/-- `sendIAM`: allocates a CIC (the JavaScript falsy test `if (!cic)` also
rejects an allocated CIC 0), records the outgoing call and emits the
IAM. -/
def sendIAM (s : ISUPHandlerSt) (callingNumber calledNumber : String) :
    ISUPHandlerSt × Option Nat × List ISUPEvent :=
  match allocateCIC s with
  | (none, s1) => (s1, none, [])
  | (some cic, s1) =>
      if cic = 0 then (s1, none, [])
      else
        let call : ISUPCall :=
          { cic, state := .outgoing_setup,
            callingNumber := some callingNumber, calledNumber := some calledNumber }
        ({ s1 with calls := setCall s1.calls cic call }, some cic,
         [.messageOut { messageType := 0x01, cic,
                        parameters := buildIAMParameters callingNumber calledNumber }])

/-- `sendRLC`: deletes the call and returns its CIC to the pool (appended at
the back of the insertion order) when the call exists, and emits RLC
either way. -/
def sendRLC (s : ISUPHandlerSt) (cic : Nat) : ISUPHandlerSt × List ISUPEvent :=
  match s.calls cic with
  | some _ =>
      ({ s with calls := delCall s.calls cic, availableCICs := setAdd s.availableCICs cic },
       [.messageOut { messageType := 0x10, cic, parameters := [] }])
  | none => (s, [.messageOut { messageType := 0x10, cic, parameters := [] }])

def handleIAM (s : ISUPHandlerSt) (m : ISUPMessage) :
    ISUPHandlerSt × Except String (List ISUPEvent) :=
  match parseIAMParameters m.parameters with
  | .error e => (s, .error e)
  | .ok (calling, called) =>
      let call : ISUPCall :=
        { cic := m.cic, state := .incoming_setup,
          callingNumber := calling, calledNumber := called }
      ({ s with calls := setCall s.calls m.cic call,
                availableCICs := setDelete s.availableCICs m.cic },
       .ok [.incomingCall call])

def handleACM (s : ISUPHandlerSt) (m : ISUPMessage) :
    ISUPHandlerSt × Except String (List ISUPEvent) :=
  match s.calls m.cic with
  | some call => (s, .ok [.callProgress call])
  | none => (s, .ok [])

def handleANM (s : ISUPHandlerSt) (m : ISUPMessage) :
    ISUPHandlerSt × Except String (List ISUPEvent) :=
  match s.calls m.cic with
  | some call =>
      ({ s with calls := setCall s.calls m.cic { call with state := .answered } },
       .ok [.callAnswered { call with state := .answered }])
  | none => (s, .ok [])

def handleREL (s : ISUPHandlerSt) (m : ISUPMessage) :
    ISUPHandlerSt × Except String (List ISUPEvent) :=
  match s.calls m.cic with
  | none => (s, .ok [])
  | some call =>
      match parseCauseParameter m.parameters with
      | .error e =>
          ({ s with calls := setCall s.calls m.cic { call with state := .releasing } },
           .error e)
      | .ok cause =>
          ((sendRLC { s with calls := setCall s.calls m.cic { call with state := .releasing } }
              m.cic).1,
           .ok (.callReleased { call with state := .releasing } cause
                :: (sendRLC { s with
                       calls := setCall s.calls m.cic { call with state := .releasing } }
                     m.cic).2))

def handleRLC (s : ISUPHandlerSt) (m : ISUPMessage) :
    ISUPHandlerSt × Except String (List ISUPEvent) :=
  match s.calls m.cic with
  | some call =>
      ({ s with calls := delCall s.calls m.cic,
                availableCICs := setAdd s.availableCICs m.cic },
       .ok [.callCleared call])
  | none => (s, .ok [])

/-- `handleIncomingMessage`: the `switch (message.messageType)`. -/
def handleIncomingMessage (s : ISUPHandlerSt) (m : ISUPMessage) :
    ISUPHandlerSt × Except String (List ISUPEvent) :=
  if m.messageType = 0x01 then handleIAM s m
  else if m.messageType = 0x06 then handleACM s m
  else if m.messageType = 0x09 then handleANM s m
  else if m.messageType = 0x0C then handleREL s m
  else if m.messageType = 0x10 then handleRLC s m
  else (s, .ok [.unknownMessage m])

/-- `start`: throws when already running (no state change), otherwise only
flips `isRunning`. -/
def start (s : ISUPHandlerSt) : ISUPHandlerSt × Except String (List ISUPEvent) :=
  if s.isRunning then (s, .error "Sigtran ISUP handler already running")
  else ({ s with isRunning := true }, .ok [.started])

/-- `stop`: clears the calls map but does *not* return their CICs to the
pool. -/
def stop (s : ISUPHandlerSt) : ISUPHandlerSt × List ISUPEvent :=
  if ¬ s.isRunning then (s, [])
  else ({ s with isRunning := false, calls := fun _ => none }, [.stopped])

end SigtranISUPHandler

namespace SigtranISUPHandler

/-! ### Claims C7 and C10 -/

/-- Two outgoing calls from the fresh handler: CICs 1 and 2 are allocated in
insertion order. -/
def isupCexStep1 := sendIAM initISUPHandler "1000" "2000"

def isupCexStep2 := sendIAM isupCexStep1.1 "1001" "2001"

/-- Releasing CIC 1 re-inserts it at the *back* of the free set
(`[3, ..., 1000, 1]`). -/
def isupCexStep3 := (sendRLC isupCexStep2.1 1).1

set_option maxRecDepth 100000 in
/-- C7 (counterexample to the claim as stated): after allocating CICs 1 and
2 and releasing CIC 1 — so that no free CIC smaller than 1 exists — the
next allocation returns 3, not 1: `Array.from(set)[0]` follows the
`Set`'s insertion order, and the released CIC was appended at the back. -/
theorem cic_release_then_allocate_skips_released :
    isupCexStep1.2.1 = some 1 ∧
    isupCexStep2.2.1 = some 2 ∧
    0 ∉ isupCexStep3.availableCICs ∧
    (allocateCIC isupCexStep3).1 = some 3 ∧
    (some 3 : Option Nat) ≠ some 1 := by
  refine ⟨rfl, rfl, by decide, rfl, by decide⟩

/-- C7 (amended): the pool is kept in insertion order and a released CIC is
appended at the back, so `releaseCIC(c); allocateCIC() == c` holds
exactly when `c` is the *only* free CIC — allocation is FIFO over
insertion order, not first-free-fit by numeric value. -/
theorem cic_release_then_allocate_when_only_free (s : ISUPHandlerSt) (cic : Nat)
    (hcall : (s.calls cic).isSome = true) (hempty : s.availableCICs = []) :
    (allocateCIC (sendRLC s cic).1).1 = some cic := by
  unfold sendRLC
  cases hc : s.calls cic with
  | none => rw [hc] at hcall; simp at hcall
  | some call =>
      simp only [hc]
      unfold allocateCIC
      simp [hempty, setAdd]

/-- A handler owning one call on CIC 7 with an otherwise empty pool. -/
def onlyFreeDemoState : ISUPHandlerSt :=
  { calls := fun k =>
      if k = 7 then
        some { cic := 7, state := .releasing, callingNumber := none, calledNumber := none }
      else none,
    availableCICs := [], isRunning := true }

/-- Witness for `cic_release_then_allocate_when_only_free` at CIC 7. -/
theorem cic_release_then_allocate_when_only_free_witness :
    (allocateCIC (sendRLC onlyFreeDemoState 7).1).1 = some 7 :=
  cic_release_then_allocate_when_only_free onlyFreeDemoState 7 rfl rfl

end SigtranISUPHandler

namespace SigtranISUPHandler

/-! ### Claim C10: no CIC is both free and active -/

/-- The disjointness invariant of claim C10: no CIC is simultaneously in
the available-CIC pool and a key of the active-calls map. -/
def cicDisjoint (s : ISUPHandlerSt) : Prop :=
  ∀ c, c ∈ s.availableCICs → s.calls c = none

theorem mem_setAdd {l : List Nat} {x c : Nat} (h : c ∈ setAdd l x) : c ∈ l ∨ c = x := by
  unfold setAdd at h
  split at h
  · exact Or.inl h
  · rcases List.mem_append.mp h with h1 | h1
    · exact Or.inl h1
    · exact Or.inr (List.mem_singleton.mp h1)

theorem mem_setDelete {l : List Nat} {x c : Nat} (h : c ∈ setDelete l x) :
    c ∈ l ∧ c ≠ x := by
  unfold setDelete at h
  have h2 := List.mem_filter.mp h
  exact ⟨h2.1, by simpa using h2.2⟩

theorem allocateCIC_none {s : ISUPHandlerSt} {s1 : ISUPHandlerSt}
    (h : allocateCIC s = (none, s1)) : s1 = s := by
  unfold allocateCIC at h
  cases hh : s.availableCICs.head? with
  | none => rw [hh] at h; cases h; rfl
  | some c0 => rw [hh] at h; cases h

theorem allocateCIC_some {s s1 : ISUPHandlerSt} {cic : Nat}
    (h : allocateCIC s = (some cic, s1)) :
    s1.calls = s.calls ∧ cic ∉ s1.availableCICs ∧
      ∀ c, c ∈ s1.availableCICs → c ∈ s.availableCICs := by
  unfold allocateCIC at h
  cases hh : s.availableCICs.head? with
  | none => rw [hh] at h; cases h
  | some c0 =>
      rw [hh] at h
      cases h
      refine ⟨rfl, ?_, fun c hc => (mem_setDelete hc).1⟩
      intro hmem
      exact (mem_setDelete hmem).2 rfl

theorem setCall_existing_disjoint {s : ISUPHandlerSt} {k : Nat} {old : ISUPCall}
    (hs : cicDisjoint s) (hold : s.calls k = some old) (v : ISUPCall) :
    cicDisjoint { s with calls := setCall s.calls k v } := by
  intro c hc
  show setCall s.calls k v c = none
  unfold setCall
  by_cases hck : c = k
  · subst hck
    rw [hs c hc] at hold
    cases hold
  · rw [if_neg hck]; exact hs c hc

theorem delCall_setAdd_disjoint {s : ISUPHandlerSt} (k : Nat) (hs : cicDisjoint s) :
    cicDisjoint
      { s with calls := delCall s.calls k, availableCICs := setAdd s.availableCICs k } := by
  intro c hc
  show delCall s.calls k c = none
  unfold delCall
  by_cases hck : c = k
  · rw [if_pos hck]
  · rw [if_neg hck]
    rcases mem_setAdd hc with h1 | h1
    · exact hs c h1
    · exact absurd h1 hck

theorem sendRLC_disjoint {s : ISUPHandlerSt} (cic : Nat) (hs : cicDisjoint s) :
    cicDisjoint (sendRLC s cic).1 := by
  unfold sendRLC
  split
  · exact delCall_setAdd_disjoint cic hs
  · exact hs

theorem sendIAM_disjoint (s : ISUPHandlerSt) (a b : String) (hs : cicDisjoint s) :
    cicDisjoint (sendIAM s a b).1 := by
  unfold sendIAM
  split
  · next s1 heq =>
    rw [allocateCIC_none heq]
    exact hs
  · next cic s1 heq =>
    obtain ⟨hcalls, hnot, hsub⟩ := allocateCIC_some heq
    split
    · intro c hc
      rw [hcalls]
      exact hs c (hsub c hc)
    · intro c hc
      show setCall s1.calls cic _ c = none
      unfold setCall
      by_cases hcc : c = cic
      · subst hcc
        exact absurd hc hnot
      · rw [if_neg hcc, hcalls]
        exact hs c (hsub c hc)

theorem handleIAM_disjoint (s : ISUPHandlerSt) (m : ISUPMessage) (hs : cicDisjoint s) :
    cicDisjoint (handleIAM s m).1 := by
  unfold handleIAM
  split
  · exact hs
  · intro c hc
    obtain ⟨h1, h2⟩ := mem_setDelete hc
    show setCall s.calls m.cic _ c = none
    unfold setCall
    rw [if_neg h2]
    exact hs c h1

theorem handleACM_disjoint (s : ISUPHandlerSt) (m : ISUPMessage) (hs : cicDisjoint s) :
    cicDisjoint (handleACM s m).1 := by
  unfold handleACM
  split
  · exact hs
  · exact hs

theorem handleANM_disjoint (s : ISUPHandlerSt) (m : ISUPMessage) (hs : cicDisjoint s) :
    cicDisjoint (handleANM s m).1 := by
  unfold handleANM
  split
  · next call heq => exact setCall_existing_disjoint hs heq _
  · exact hs

theorem handleREL_disjoint (s : ISUPHandlerSt) (m : ISUPMessage) (hs : cicDisjoint s) :
    cicDisjoint (handleREL s m).1 := by
  unfold handleREL
  split
  · exact hs
  · next call heq =>
    split
    · exact setCall_existing_disjoint hs heq _
    · exact sendRLC_disjoint m.cic (setCall_existing_disjoint hs heq _)

theorem handleRLC_disjoint (s : ISUPHandlerSt) (m : ISUPMessage) (hs : cicDisjoint s) :
    cicDisjoint (handleRLC s m).1 := by
  unfold handleRLC
  split
  · exact delCall_setAdd_disjoint m.cic hs
  · exact hs

theorem handleIncomingMessage_disjoint (s : ISUPHandlerSt) (m : ISUPMessage)
    (hs : cicDisjoint s) : cicDisjoint (handleIncomingMessage s m).1 := by
  unfold handleIncomingMessage
  split
  · exact handleIAM_disjoint s m hs
  · split
    · exact handleACM_disjoint s m hs
    · split
      · exact handleANM_disjoint s m hs
      · split
        · exact handleREL_disjoint s m hs
        · split
          · exact handleRLC_disjoint s m hs
          · exact hs

/-- The public operations of the ISUP handler named by claim C10. -/
inductive ISUPOp
  | opSendIAM (callingNumber calledNumber : String)
  | opHandleIncoming (m : ISUPMessage)
  | opSendRLC (cic : Nat)
  | opStart
  | opStop

def applyISUPOp (s : ISUPHandlerSt) : ISUPOp → ISUPHandlerSt
  | .opSendIAM a b => (sendIAM s a b).1
  | .opHandleIncoming m => (handleIncomingMessage s m).1
  | .opSendRLC cic => (sendRLC s cic).1
  | .opStart => (start s).1
  | .opStop => (stop s).1

/-- C10: every public operation of the ISUP handler (`sendIAM`,
`handleIncomingMessage` for any message, `sendRLC`, `start`, `stop`)
preserves the disjointness of the available-CIC pool and the
active-calls map — including the states reached when a parameter parse
throws mid-operation. -/
theorem isup_ops_preserve_cic_disjoint (op : ISUPOp) (s : ISUPHandlerSt)
    (hs : cicDisjoint s) : cicDisjoint (applyISUPOp s op) := by
  cases op with
  | opSendIAM a b => exact sendIAM_disjoint s a b hs
  | opHandleIncoming m => exact handleIncomingMessage_disjoint s m hs
  | opSendRLC cic => exact sendRLC_disjoint cic hs
  | opStart =>
      show cicDisjoint (start s).1
      unfold start
      split
      · exact hs
      · exact hs
  | opStop =>
      show cicDisjoint (stop s).1
      unfold stop
      split
      · exact hs
      · intro c hc
        rfl

/-- Witness for `isup_ops_preserve_cic_disjoint`: the fresh handler (whose
calls map is empty) handling an incoming RLC on CIC 5. -/
theorem isup_ops_preserve_cic_disjoint_witness :
    cicDisjoint (applyISUPOp initISUPHandler
      (.opHandleIncoming { messageType := 0x10, cic := 5, parameters := [] })) :=
  isup_ops_preserve_cic_disjoint _ initISUPHandler (fun _ _ => rfl)

end SigtranISUPHandler

/-! ### Shared SIP-side types (`src/types/index.ts`)

`CallSession.startTime` (a wall-clock `Date`) is omitted: no claim reads
it and it is not computable here. -/

structure SIPMessage where
  method : String
  uri : String
  headers : List (String × String)
  body : Option String
  deriving Repr, DecidableEq

structure RTPSession where
  localPort : Nat
  remoteAddress : String
  remotePort : Nat
  payloadType : Nat
  deriving Repr, DecidableEq

inductive CallSessionState
  | setup | proceeding | alerting | connected | disconnect
  deriving Repr, DecidableEq

inductive CallDirection
  | inbound | outbound
  deriving Repr, DecidableEq

structure CallSession where
  id : String
  tdmChannel : Option Nat
  sipCallId : Option String
  rtpSession : Option RTPSession
  state : CallSessionState
  direction : CallDirection
  deriving Repr, DecidableEq

/-- `headers[name]` on the plain-object header map. -/
def getHeader (headers : List (String × String)) (name : String) : Option String :=
  (headers.find? (fun p => p.1 == name)).map (·.2)

/-! ### Protocol translator (`ProtocolTranslator`, freetdm.ts) -/

structure ProtocolTranslationRules where
  causeCodeMapping : List (Nat × Nat)
  deriving Repr, DecidableEq

structure TranslationContext where
  sourceProtocol : String
  targetProtocol : String
  callSession : CallSession
  variant : Option String
  deriving Repr, DecidableEq

namespace ProtocolTranslator

/-- `Map.get` on a cause table. -/
def causeLookup (l : List (Nat × Nat)) (k : Nat) : Option Nat :=
  (l.find? (fun p => p.1 == k)).map (·.2)

/-- The `itu-to-sip` `causeCodeMapping` built by `setupITUToSIPCauseCodes`
(freetdm.ts lines 531-565). -/
def ituToSipCauseCodeMapping : List (Nat × Nat) :=
  [(16, 200), (17, 486), (18, 408), (19, 480), (20, 480), (21, 603), (22, 410), (23, 410),
   (1, 404), (2, 404), (3, 404), (27, 502), (28, 484), (29, 501), (31, 500),
   (34, 503), (38, 503), (41, 503), (42, 503), (43, 503), (44, 503)]

def ituToSipRules : ProtocolTranslationRules :=
  { causeCodeMapping := ituToSipCauseCodeMapping }

/-- `parseISUPCause` (freetdm.ts lines 1089-1092): a stub that ignores the
REL's cause parameter entirely and returns 16 (normal call clearing). -/
def parseISUPCause (parameters : List Nat) : Nat := 16

/-- `getQ850ReasonText` (freetdm.ts lines 1182-1200). -/
def getQ850ReasonText (cause : Nat) : String :=
  if cause = 1 then "Unallocated number"
  else if cause = 16 then "Normal call clearing"
  else if cause = 17 then "User busy"
  else if cause = 18 then "No user responding"
  else if cause = 19 then "No answer from user"
  else if cause = 21 then "Call rejected"
  else if cause = 22 then "Number changed"
  else if cause = 27 then "Destination out of order"
  else if cause = 28 then "Invalid number format"
  else if cause = 31 then "Normal, unspecified"
  else if cause = 34 then "No circuit/channel available"
  else if cause = 38 then "Network out of order"
  else if cause = 41 then "Temporary failure"
  else if cause = 42 then "Switching equipment congestion"
  else "Unknown"

/-- `translateRELToBye` (freetdm.ts lines 1017-1030): the cause comes from
the `parseISUPCause` stub, so the Reason header always carries
`cause=16`; the looked-up SIP status (`|| 500`, with 0 falsy) is
computed but unused. -/
def translateRELToBye (isupMessage : ISUPMessage) (rules : ProtocolTranslationRules)
    (context : TranslationContext) : SIPMessage :=
  let cause := parseISUPCause isupMessage.parameters
  let sipCode :=
    match causeLookup rules.causeCodeMapping cause with
    | some v => if v = 0 then 500 else v
    | none => 500
  { method := "BYE", uri := "",
    headers :=
      [("Call-ID", (context.callSession.sipCallId).getD ""),
       ("CSeq", "2 BYE"),
       ("Reason", "Q.850;cause=" ++ toString cause ++ ";text=\""
          ++ getQ850ReasonText cause ++ "\"")],
    body := none }

/-- An incoming REL on CIC 7 whose cause parameter (tag 0x12, length 2,
location octet, cause octet `0x80 | 17`) carries Q.850 cause 17, user
busy — the concrete scenario of the specification. -/
def relCause17Message : ISUPMessage :=
  { messageType := 0x0C, cic := 7, parameters := [0x12, 0x02, 0x80, 0x91] }

def relDemoContext : TranslationContext :=
  { sourceProtocol := "isup", targetProtocol := "sip",
    callSession :=
      { id := "7", tdmChannel := none, sipCallId := some "call-7",
        rtpSession := none, state := .connected, direction := .inbound },
    variant := some "itu" }

/-- C8: the REL→BYE translation ignores the REL's cause value.  The REL's
parameters do encode cause 17 (the Sigtran handler's own
`parseCauseParameter` extracts 17 from them), but `parseISUPCause` is a
stub returning 16, so the emitted BYE carries
`Reason: Q.850;cause=16;text="Normal call clearing"` instead of the
claimed `Q.850;cause=17;text="User busy"`. -/
theorem rel_to_bye_ignores_rel_cause :
    SigtranISUPHandler.parseCauseParameter relCause17Message.parameters = .ok 17 ∧
    parseISUPCause relCause17Message.parameters = 16 ∧
    getHeader (translateRELToBye relCause17Message ituToSipRules relDemoContext).headers
        "Reason"
      = some "Q.850;cause=16;text=\"Normal call clearing\"" ∧
    (some "Q.850;cause=16;text=\"Normal call clearing\"" : Option String)
      ≠ some "Q.850;cause=17;text=\"User busy\"" := by
  refine ⟨rfl, rfl, by decide, by decide⟩

end ProtocolTranslator

/-! ### SIP handler (`SIPHandler`, src/protocols/sip.ts)

`sessions : Map<string, CallSession>` becomes `String → Option CallSession`.
A message whose `Call-ID` header is absent is keyed like JavaScript
`undefined` — interpolated as the string "undefined".  `sendInvite` /
`sendBye` / `generateCallId` depend on `Date.now` and `Math.random` and
are outside the claims, so they are not embedded.  Each operation
returns the state reached (mutations before a `throw` persist), the
events emitted, and an `Except` recording a propagated exception. -/

inductive SIPEvent
  | messageOut (m : SIPMessage)
  | sessionCreated (s : CallSession)
  | sessionUpdated (s : CallSession)
  | sessionTerminated (s : CallSession)
  | incomingCall (s : CallSession) (m : SIPMessage)
  | response (callId : String) (statusCode : Nat) (m : SIPMessage)
  deriving Repr, DecidableEq

structure SIPHandlerSt where
  sessions : String → Option CallSession
  isRunning : Bool

namespace SIPHandler

def putSession (sessions : String → Option CallSession) (k : String) (v : CallSession) :
    String → Option CallSession :=
  fun c => if c = k then some v else sessions c

def dropSession (sessions : String → Option CallSession) (k : String) :
    String → Option CallSession :=
  fun c => if c = k then none else sessions c

/-- JavaScript `parseInt` restricted to the non-negative decimal inputs the
handler feeds it: the longest leading digit run, `none` (NaN) when the
string does not start with a digit. -/
def jsParseInt (s : String) : Option Nat :=
  match s.toList.takeWhile Char.isDigit with
  | [] => none
  | ds => some (ds.foldl (fun acc c => acc * 10 + (c.toNat - 48)) 0)

/-- `createSession` (sip.ts lines 37-49). -/
def createSession (s : SIPHandlerSt) (callId : String) (direction : CallDirection) :
    SIPHandlerSt × CallSession × List SIPEvent :=
  let session : CallSession :=
    { id := callId, tdmChannel := none, sipCallId := some callId,
      rtpSession := none, state := .setup, direction }
  ({ s with sessions := putSession s.sessions callId session }, session,
   [.sessionCreated session])

/-- `terminateSession` (sip.ts lines 59-66): marks the session disconnected,
deletes it and emits `sessionTerminated`; a miss is a no-op. -/
def terminateSession (s : SIPHandlerSt) (callId : String) :
    SIPHandlerSt × List SIPEvent :=
  match s.sessions callId with
  | some session =>
      ({ s with sessions := dropSession s.sessions callId },
       [.sessionTerminated { session with state := .disconnect }])
  | none => (s, [])

/-- `sendResponse` (sip.ts lines 89-112): throws when no session exists for
the Call-ID — before the response message is emitted. -/
def sendResponse (s : SIPHandlerSt) (callId : String) (statusCode : Nat)
    (reasonPhrase : String) (sdp : Option String) :
    Except String (SIPHandlerSt × List SIPEvent) :=
  match s.sessions callId with
  | none => .error ("Session not found: " ++ callId)
  | some session =>
      let response : SIPMessage :=
        { method := toString statusCode ++ " " ++ reasonPhrase, uri := "",
          headers := [("Call-ID", callId), ("CSeq", "1 INVITE")], body := sdp }
      let session2 :=
        if 200 ≤ statusCode ∧ statusCode < 300 then { session with state := .connected }
        else if 180 ≤ statusCode ∧ statusCode < 200 then { session with state := .alerting }
        else session
      .ok ({ s with sessions := putSession s.sessions callId session2 },
           [.messageOut response])

/-- `getPreferredPayloadType` (sip.ts lines 194-202). -/
def getPreferredPayloadType (payloadTypes : List String) : Nat :=
  match payloadTypes.find? (fun pt => jsParseInt pt == some 0 || jsParseInt pt == some 8) with
  | some pt => (jsParseInt pt).getD 0
  | none => (jsParseInt (payloadTypes.headD "")).getD 0

/-- `parseSDP` (sip.ts lines 174-192): scans the CRLF-separated lines for
`m=audio` and records the advertised remote port and preferred payload
type on the session. -/
def parseSDP (sdp : String) (session : CallSession) : CallSession :=
  (sdp.splitOn "\x0d\n").foldl
    (fun session line =>
      if line.startsWith "m=audio" then
        match (line.splitOn " ").get? 1 with
        | none => session
        | some portStr =>
            match jsParseInt portStr with
            | none => session
            | some port =>
                { session with
                    rtpSession := some
                      { localPort := 0, remoteAddress := "", remotePort := port,
                        payloadType := getPreferredPayloadType ((line.splitOn " ").drop 3) } }
      else session)
    session

/-- `handleInvite` (sip.ts lines 145-154): creates the inbound session,
applies the SDP body to it (the created object is aliased by the map, so
the map sees the update), and emits `incomingCall`. -/
def handleInvite (s : SIPHandlerSt) (message : SIPMessage) :
    SIPHandlerSt × List SIPEvent × Except String Unit :=
  match createSession s ((getHeader message.headers "Call-ID").getD "undefined")
      CallDirection.inbound with
  | (s1, session, evs) =>
      match message.body with
      | some body =>
          ({ s1 with
               sessions := putSession s1.sessions
                 ((getHeader message.headers "Call-ID").getD "undefined")
                 (parseSDP body session) },
           evs ++ [.incomingCall (parseSDP body session) message], .ok ())
      | none => (s1, evs ++ [.incomingCall session message], .ok ())

/-- `handleBye` (sip.ts lines 156-159): terminates the session *first* and
only then calls `sendResponse`, which therefore always throws `Session
not found`. -/
def handleBye (s : SIPHandlerSt) (callId : String) :
    SIPHandlerSt × List SIPEvent × Except String Unit :=
  match sendResponse (terminateSession s callId).1 callId 200 "OK" none with
  | .error e => ((terminateSession s callId).1, (terminateSession s callId).2, .error e)
  | .ok (s2, evs2) => (s2, (terminateSession s callId).2 ++ evs2, .ok ())

/-- `updateSession` (sip.ts lines 51-57) specialised to the `state` patch
used by `handleResponse`. -/
def updateSessionState (s : SIPHandlerSt) (callId : String) (st : CallSessionState) :
    SIPHandlerSt × List SIPEvent :=
  match s.sessions callId with
  | some session =>
      ({ s with sessions := putSession s.sessions callId { session with state := st } },
       [.sessionUpdated { session with state := st }])
  | none => (s, [])

/-- `handleResponse` (sip.ts lines 161-172). -/
def handleResponse (s : SIPHandlerSt) (message : SIPMessage) :
    SIPHandlerSt × List SIPEvent × Except String Unit :=
  match jsParseInt ((message.method.splitOn " ").headD "") with
  | none => (s, [.response ((getHeader message.headers "Call-ID").getD "undefined") 0 message],
             .ok ())
  | some statusCode =>
      let callId := (getHeader message.headers "Call-ID").getD "undefined"
      if 200 ≤ statusCode ∧ statusCode < 300 then
        match updateSessionState s callId .connected with
        | (s1, evs) => (s1, evs ++ [.response callId statusCode message], .ok ())
      else if 400 ≤ statusCode then
        match terminateSession s callId with
        | (s1, evs) => (s1, evs ++ [.response callId statusCode message], .ok ())
      else (s, [.response callId statusCode message], .ok ())

/-- `/^\d{3}/.test(method)`. -/
def matchesThreeDigitPrefix (s : String) : Bool :=
  match s.toList with
  | c1 :: c2 :: c3 :: _ => c1.isDigit && c2.isDigit && c3.isDigit
  | _ => false

/-- `handleIncomingMessage` (sip.ts lines 133-143). -/
def handleIncomingMessage (s : SIPHandlerSt) (message : SIPMessage) :
    SIPHandlerSt × List SIPEvent × Except String Unit :=
  if message.method = "INVITE" then handleInvite s message
  else if message.method = "BYE" then
    handleBye s ((getHeader message.headers "Call-ID").getD "undefined")
  else if matchesThreeDigitPrefix message.method then handleResponse s message
  else (s, [], .ok ())

end SIPHandler

namespace SIPHandler

/-! ### Claim C9 -/

/-- Selects the `messageOut` events — the SIP messages actually sent. -/
def isMessageOut : SIPEvent → Bool
  | .messageOut _ => true
  | _ => false

theorem terminateSession_drops (s : SIPHandlerSt) (callId : String) :
    (terminateSession s callId).1.sessions callId = none := by
  unfold terminateSession
  split
  · next session heq => exact if_pos rfl
  · next heq => exact heq

theorem terminateSession_no_messageOut (s : SIPHandlerSt) (callId : String) :
    (terminateSession s callId).2.filter isMessageOut = [] := by
  unfold terminateSession
  split
  · rfl
  · rfl

theorem sendResponse_not_found {s : SIPHandlerSt} {callId : String}
    (code : Nat) (phrase : String) (sdp : Option String)
    (h : s.sessions callId = none) :
    sendResponse s callId code phrase sdp = .error ("Session not found: " ++ callId) := by
  unfold sendResponse
  rw [h]

theorem handleBye_throws (s : SIPHandlerSt) (callId : String) :
    (handleBye s callId).2.2 = .error ("Session not found: " ++ callId) ∧
    (handleBye s callId).2.1.filter isMessageOut = [] := by
  unfold handleBye
  rw [sendResponse_not_found 200 "OK" none (terminateSession_drops s callId)]
  exact ⟨rfl, terminateSession_no_messageOut s callId⟩

/-- C9: every SIP BYE delivered to `handleIncomingMessage` — whether or not
a session with its Call-ID exists — propagates the exception
`Session not found: <callId>`, because `handleBye` runs
`terminateSession` (which deletes any session under that Call-ID) before
`sendResponse` looks the session up; consequently no SIP message, in
particular no 200 OK, is emitted on the BYE path. -/
theorem bye_always_throws_session_not_found (s : SIPHandlerSt) (msg : SIPMessage)
    (hm : msg.method = "BYE") :
    (handleIncomingMessage s msg).2.2
      = .error ("Session not found: " ++ (getHeader msg.headers "Call-ID").getD "undefined") ∧
    (handleIncomingMessage s msg).2.1.filter isMessageOut = [] := by
  unfold handleIncomingMessage
  rw [hm]
  rw [if_neg (by decide : ¬("BYE" : String) = "INVITE")]
  rw [if_pos rfl]
  exact handleBye_throws s ((getHeader msg.headers "Call-ID").getD "undefined")

/-- A BYE request for Call-ID "abc123". -/
def demoByeMessage : SIPMessage :=
  { method := "BYE", uri := "", headers := [("Call-ID", "abc123")], body := none }

/-- A handler holding a connected session under Call-ID "abc123". -/
def demoSIPState : SIPHandlerSt :=
  { sessions := fun k =>
      if k = "abc123" then
        some { id := "abc123", tdmChannel := none, sipCallId := some "abc123",
               rtpSession := none, state := .connected, direction := .inbound }
      else none,
    isRunning := true }

/-- Witness for `bye_always_throws_session_not_found`: a BYE for Call-ID
"abc123" against a handler that *does* hold a session under that
Call-ID still throws, and emits no SIP message. -/
theorem bye_always_throws_session_not_found_witness :
    (handleIncomingMessage demoSIPState demoByeMessage).2.2
      = .error ("Session not found: "
          ++ (getHeader demoByeMessage.headers "Call-ID").getD "undefined") ∧
    (handleIncomingMessage demoSIPState demoByeMessage).2.1.filter isMessageOut = [] :=
  bye_always_throws_session_not_found demoSIPState demoByeMessage rfl

end SIPHandler
